import Mathlib

/-
Shallow embedding of the multi-sig coordination layer of the repository:
  src/src/frontend-aiken/src/lib/server/validators/multi_sig_wallet/multi-sig-session.ts
  (session entity, TTL helpers, storage helpers, createSession, applySignature,
   markSubmitted, exportSessionPayload, importSessionPayload)
and of the unlock flow in the companion module of the same directory
  (initiateUnlock, coSign, submitUnlock).

Modelling conventions:
  - `sessionStorage` holds at most one session under the fixed key
    SESSION_KEY, so the store is `Option MultiSigSession`; every operation
    that touches storage takes the current store and the current clock
    (`Date.now()` in milliseconds, a `Nat`) and returns the new store.
  - Throwing functions return `Except String` carrying the thrown message;
    `markSubmitted` returns void and never throws, so its result component
    is always `Except.ok ()`.
  - External collaborators (wallet signing, transaction building,
    `crypto.randomUUID`, network submission) are passed in as parameters:
    the embedding covers the coordination bookkeeping only.
  - The base64/JSON round trip of export/import (`btoa ∘ JSON.stringify`
    and its inverse) is modelled by passing the payload record itself.
  - `setTimeout(clearSession, 3000)` in markSubmitted (a real-time grace
    period) is outside the model.
-/

namespace MultiSig

/-- `SESSION_TTL_MS = 10 * 60 * 1000` (10 minutes). -/
def SESSION_TTL_MS : Nat := 10 * 60 * 1000

/-- The status union of the session record: "pending" | "ready" | "submitted". -/
inductive SessionStatus where
  | pending
  | ready
  | submitted
  deriving DecidableEq

/-- The string of a status, as interpolated into error messages. -/
def SessionStatus.label : SessionStatus → String
  | SessionStatus.pending => "pending"
  | SessionStatus.ready => "ready"
  | SessionStatus.submitted => "submitted"

/-- The `MultiSigSession` interface. `txHash?` is the optional field. -/
structure MultiSigSession where
  sessionId : String
  unsignedTx : String
  partialTx : String
  collectedSigners : List String
  threshold : Nat
  status : SessionStatus
  createdAt : Nat
  expiresAt : Nat
  txHash : Option String := none
  deriving DecidableEq

/-- `sessionStorage` under the single key SESSION_KEY: at most one session. -/
abbrev Store := Option MultiSigSession

/-- `isExpired`: `Date.now() > session.expiresAt`. -/
def isExpired (session : MultiSigSession) (now : Nat) : Bool :=
  session.expiresAt < now

/-- `readSession`: returns the stored session, auto-clearing (and returning
null) when it is expired. Result: (returned session, store afterwards). -/
def readSession (store : Store) (now : Nat) : Option MultiSigSession × Store :=
  match store with
  | none => (none, none)
  | some session =>
      if isExpired session now then (none, none) else (some session, some session)

/-- `writeSession`: unconditionally overwrites the stored session. -/
def writeSession (session : MultiSigSession) : Store :=
  some session

/-- `clearSession`: removes the stored session. -/
def clearSession : Store :=
  none

/-- `hasActiveSession`: true when a live (non-expired) session exists. -/
def hasActiveSession (store : Store) (now : Nat) : Bool × Store :=
  let r := readSession store now
  (r.1.isSome, r.2)

/-- The parameter object of `createSession`. -/
structure CreateParams where
  unsignedTx : String
  partialTx : String
  threshold : Nat
  initiatorPkh : String
  deriving DecidableEq

/-- `createSession`: builds the new session (sessionId from
`crypto.randomUUID()`, passed in as `newSessionId`), writes it, returns it.
Note the literal `status: "pending"` with no look at the threshold. -/
def createSession (params : CreateParams) (newSessionId : String) (now : Nat) :
    MultiSigSession × Store :=
  let session : MultiSigSession :=
    { sessionId := newSessionId
      unsignedTx := params.unsignedTx
      partialTx := params.partialTx
      collectedSigners := [params.initiatorPkh]
      threshold := params.threshold
      status := SessionStatus.pending
      createdAt := now
      expiresAt := now + SESSION_TTL_MS
      txHash := none }
  (session, writeSession session)

/-- `getSession`: load the current session; null if none or expired. -/
def getSession (store : Store) (now : Nat) : Option MultiSigSession × Store :=
  readSession store now

/-- The parameter object of `applySignature`. -/
structure ApplyParams where
  signerPkh : String
  newPartialTx : String
  deriving DecidableEq

/-- `applySignature`: guards are, in order: a live session exists; status is
"pending"; the signer has not already signed. There is no check of the
signer against any required-signer set (the code's comment: "We don't
validate if signer is in requiredSigners - let the script do that
on-chain"). On success the partial tx is replaced, the signer appended, and
status becomes "ready" exactly when the new count reaches the threshold. -/
def applySignature (params : ApplyParams) (store : Store) (now : Nat) :
    Except String MultiSigSession × Store :=
  match readSession store now with
  | (none, store1) => (Except.error "No active session or session expired.", store1)
  | (some session, store1) =>
      if session.status ≠ SessionStatus.pending then
        (Except.error ("Session is already \"" ++ session.status.label ++ "\"."), store1)
      else if params.signerPkh ∈ session.collectedSigners then
        (Except.error "This wallet has already signed this session.", store1)
      else
        let updatedCollected := session.collectedSigners ++ [params.signerPkh]
        let updated : MultiSigSession :=
          { session with
            partialTx := params.newPartialTx
            collectedSigners := updatedCollected
            status :=
              if session.threshold ≤ updatedCollected.length then SessionStatus.ready
              else SessionStatus.pending }
        (Except.ok updated, writeSession updated)

/-- `markSubmitted`: void and throw-free. If no live session exists it
simply returns; otherwise it overwrites the session with status
"submitted" and the txHash, with no guard on the current status. -/
def markSubmitted (txHash : String) (store : Store) (now : Nat) :
    Except String Unit × Store :=
  match readSession store now with
  | (none, store1) => (Except.ok (), store1)
  | (some session, _store1) =>
      (Except.ok (),
       writeSession { session with status := SessionStatus.submitted, txHash := some txHash })

/-- The export payload: exactly the five fields the code encodes. -/
structure SessionPayload where
  sessionId : String
  partialTx : String
  collectedSigners : List String
  threshold : Nat
  expiresAt : Nat
  deriving DecidableEq

/-- `exportSessionPayload`: encodes the live session's public progress. -/
def exportSessionPayload (store : Store) (now : Nat) :
    Option SessionPayload × Store :=
  match readSession store now with
  | (none, store1) => (none, store1)
  | (some session, store1) =>
      (some { sessionId := session.sessionId
              partialTx := session.partialTx
              collectedSigners := session.collectedSigners
              threshold := session.threshold
              expiresAt := session.expiresAt }, store1)

/-- The session adopted from an imported payload: the payload's fields
spread in, `unsignedTx` set to the payload's partialTx, status reset to
"pending", createdAt reset to the import time, txHash absent. -/
def adoptPayload (payload : SessionPayload) (now : Nat) : MultiSigSession :=
  { sessionId := payload.sessionId
    unsignedTx := payload.partialTx
    partialTx := payload.partialTx
    collectedSigners := payload.collectedSigners
    threshold := payload.threshold
    status := SessionStatus.pending
    createdAt := now
    expiresAt := payload.expiresAt
    txHash := none }

/-- `importSessionPayload`: rejects a payload already past its expiresAt;
when a live local session with the same sessionId exists, returns the local
session unchanged (no comparison of progress); otherwise adopts the
payload. -/
def importSessionPayload (payload : SessionPayload) (store : Store) (now : Nat) :
    Except String MultiSigSession × Store :=
  if payload.expiresAt < now then
    (Except.error "Failed to import session: Imported session has already expired.", store)
  else
    match readSession store now with
    | (some existing, store1) =>
        if existing.sessionId = payload.sessionId then (Except.ok existing, store1)
        else
          let session := adoptPayload payload now
          (Except.ok session, writeSession session)
    | (none, _store1) =>
        let session := adoptPayload payload now
        (Except.ok session, writeSession session)

/-- The externally produced inputs of `initiateUnlock`: the built unsigned
transaction, the initiator's partial signature of it, the threshold parsed
from the datum, the initiator's key hash, and the fresh session id. -/
structure UnlockExternals where
  unsignedTx : String
  partialTx : String
  threshold : Nat
  initiatorPkh : String
  newSessionId : String
  deriving DecidableEq

/-- `initiateUnlock`: throws when a live session already exists, otherwise
creates the session from the built transaction and the initiator's partial
signature. The wallet/provider interactions are the `ext` parameters. -/
def initiateUnlock (ext : UnlockExternals) (store : Store) (now : Nat) :
    Except String MultiSigSession × Store :=
  let active := hasActiveSession store now
  if active.1 then
    (Except.error "A multisig session is already active. Clear it before starting a new one.",
     active.2)
  else
    let created := createSession
      { unsignedTx := ext.unsignedTx
        partialTx := ext.partialTx
        threshold := ext.threshold
        initiatorPkh := ext.initiatorPkh } ext.newSessionId now
    (Except.ok created.1, created.2)

/-- `coSign`: loads the session, guards (duplicate signer first, then
status), then applies the externally produced new partial transaction via
`applySignature`. `walletPkh` and `newPartialTx` come from the wallet. -/
def coSign (walletPkh : String) (newPartialTx : String) (store : Store) (now : Nat) :
    Except String MultiSigSession × Store :=
  match getSession store now with
  | (none, store1) =>
      (Except.error "No active session found or session has expired.", store1)
  | (some session, store1) =>
      if walletPkh ∈ session.collectedSigners then
        (Except.error "This wallet has already signed this session.", store1)
      else if session.status ≠ SessionStatus.pending then
        (Except.error ("Session is already \"" ++ session.status.label ++ "\"."), store1)
      else
        applySignature { signerPkh := walletPkh, newPartialTx := newPartialTx } store1 now

/-- `submitUnlock`: refuses unless status is "ready", otherwise submits
(the returned `txHash` is the external submission result) and records it
through `markSubmitted`. -/
def submitUnlock (txHash : String) (store : Store) (now : Nat) :
    Except String String × Store :=
  match getSession store now with
  | (none, store1) =>
      (Except.error "No active session found or session has expired.", store1)
  | (some session, store1) =>
      if session.status ≠ SessionStatus.ready then
        (Except.error ("Not enough signatures: " ++ toString session.collectedSigners.length
          ++ "/" ++ toString session.threshold ++ ". Waiting on "
          ++ toString ((session.threshold : Int) - session.collectedSigners.length)
          ++ " more signer(s)."), store1)
      else
        let store2 := (markSubmitted txHash store1 now).2
        (Except.ok txHash, store2)

/-! ### Helper lemmas shared by the claim theorems -/

/-- A read returning a session pins the store: the stored session is the
returned one, it is not expired, and the store is untouched. -/
theorem readSession_some (store : Store) (now : Nat) (s : MultiSigSession)
    (h : (readSession store now).1 = some s) :
    store = some s ∧ isExpired s now = false ∧ readSession store now = (some s, some s) := by
  cases store with
  | none => simp [readSession] at h
  | some t =>
      cases hexp : isExpired t now with
      | true => simp [readSession, hexp] at h
      | false =>
          simp only [readSession, hexp, Bool.false_eq_true, if_false,
            Option.some.injEq] at h
          subst h
          exact ⟨rfl, hexp, by simp [readSession, hexp]⟩

/-- A read returning nothing leaves the store empty afterwards. -/
theorem readSession_none (store : Store) (now : Nat)
    (h : (readSession store now).1 = none) :
    (readSession store now).2 = none := by
  cases store with
  | none => simp [readSession]
  | some t =>
      cases hexp : isExpired t now with
      | true => simp [readSession, hexp]
      | false => simp [readSession, hexp] at h

/-- Inversion of a successful applySignature: the read produced a live
pending session the signer had not signed, and the result is exactly the
source's updated record. -/
theorem applySignature_ok_inv (params : ApplyParams) (store : Store) (now : Nat)
    (s2 : MultiSigSession)
    (h : (applySignature params store now).1 = Except.ok s2) :
    ∃ s, (readSession store now).1 = some s ∧ s.status = SessionStatus.pending ∧
      params.signerPkh ∉ s.collectedSigners ∧
      s2 = { s with
        partialTx := params.newPartialTx
        collectedSigners := s.collectedSigners ++ [params.signerPkh]
        status :=
          if s.threshold ≤ (s.collectedSigners ++ [params.signerPkh]).length
          then SessionStatus.ready else SessionStatus.pending } := by
  cases hr : readSession store now with
  | mk r1 r2 =>
      cases r1 with
      | none => rw [applySignature, hr] at h; exact absurd h (by simp)
      | some s =>
          refine ⟨s, by simp [hr], ?_⟩
          rw [applySignature, hr] at h
          by_cases hpend : s.status = SessionStatus.pending
          · by_cases hdup : params.signerPkh ∈ s.collectedSigners
            · simp [hpend, hdup] at h
            · simp only [hpend, ne_eq, not_true_eq_false, if_false, hdup, if_neg,
                not_false_eq_true, Except.ok.injEq] at h
              exact ⟨hpend, hdup, h.symm⟩
          · simp [hpend] at h

/-! ### Claim C1 -/

/-- A live pending session with one collected signer and threshold 2, used
for the C1 counterexample. -/
def sessC1 : MultiSigSession :=
  { sessionId := "sid1"
    unsignedTx := "utx"
    partialTx := "ptx"
    collectedSigners := ["aa"]
    threshold := 2
    status := SessionStatus.pending
    createdAt := 0
    expiresAt := 600000
    txHash := none }

/-- C1 counterexample. The claim: for every authorizer identity outside the
session's required-authorizer set, applySignature fails and leaves the
session unchanged. The session record carries no required-authorizer set at
all and applySignature checks none, so the claim fails for every choice of
required set: here, with required set ["aa", "bb"] (of which "dd" is not a
member), applySignature with signer "dd" on the live pending session sessC1
does not fail and does not leave the session unchanged — it appends "dd"
and, the count having reached the threshold, even marks the session ready. -/
theorem applySignature_outside_required_set_accepted_cex :
    ¬ ∀ (requiredSigners : List String) (d tx : String), d ∉ requiredSigners →
        (∃ msg, (applySignature { signerPkh := d, newPartialTx := tx }
            (some sessC1) 0).1 = Except.error msg) ∧
        (applySignature { signerPkh := d, newPartialTx := tx }
            (some sessC1) 0).2 = some sessC1 := by
  intro hclaim
  obtain ⟨⟨msg, hmsg⟩, -⟩ := hclaim ["aa", "bb"] "dd" "ptx2" (by decide)
  rw [show (applySignature { signerPkh := "dd", newPartialTx := "ptx2" }
      (some sessC1) 0).1 =
      Except.ok { sessC1 with
        partialTx := "ptx2"
        collectedSigners := ["aa", "dd"]
        status := SessionStatus.ready } from rfl] at hmsg
  exact Except.noConfusion hmsg

/-- C1 corrected. applySignature performs no required-authorizer membership
check (the session stores no required set): on a live pending session, any
signer not already collected is accepted, appended to collectedSigners, and
the count can reach the threshold through such a signer. -/
theorem applySignature_accepts_any_fresh_signer (params : ApplyParams)
    (store : Store) (now : Nat) (s : MultiSigSession)
    (hread : (readSession store now).1 = some s)
    (hpend : s.status = SessionStatus.pending)
    (hfresh : params.signerPkh ∉ s.collectedSigners) :
    applySignature params store now =
      (Except.ok { s with
          partialTx := params.newPartialTx
          collectedSigners := s.collectedSigners ++ [params.signerPkh]
          status :=
            if s.threshold ≤ (s.collectedSigners ++ [params.signerPkh]).length
            then SessionStatus.ready else SessionStatus.pending },
       writeSession { s with
          partialTx := params.newPartialTx
          collectedSigners := s.collectedSigners ++ [params.signerPkh]
          status :=
            if s.threshold ≤ (s.collectedSigners ++ [params.signerPkh]).length
            then SessionStatus.ready else SessionStatus.pending }) := by
  obtain ⟨hstore, hexp, hr⟩ := readSession_some store now s hread
  rw [applySignature, hr]
  simp [hpend, hfresh]

/-- C1 witness: the corrected claim at the concrete session sessC1 with the
fresh signer "dd". -/
theorem applySignature_accepts_any_fresh_signer_witness :
    applySignature { signerPkh := "dd", newPartialTx := "ptx2" } (some sessC1) 0 =
      (Except.ok { sessC1 with
          partialTx := "ptx2"
          collectedSigners := ["aa", "dd"]
          status := SessionStatus.ready },
       writeSession { sessC1 with
          partialTx := "ptx2"
          collectedSigners := ["aa", "dd"]
          status := SessionStatus.ready }) :=
  applySignature_accepts_any_fresh_signer
    { signerPkh := "dd", newPartialTx := "ptx2" } (some sessC1) 0 sessC1
    rfl rfl (by decide)

/-! ### Claim C2 -/

/-- A threshold-1 Create call, used for the C2 counterexample. -/
def paramsC2 : CreateParams :=
  { unsignedTx := "utx", partialTx := "ptx", threshold := 1, initiatorPkh := "aa" }

/-- C2 counterexample. The claim: a Create call with threshold 1 yields
status ready immediately. The code sets the literal "pending" with no look
at the threshold: creating with threshold 1 yields a session whose
collected count (1) already meets the threshold yet whose status is
pending, not ready. -/
theorem createSession_threshold_one_pending_cex :
    (createSession paramsC2 "sid2" 0).1.status = SessionStatus.pending ∧
    (createSession paramsC2 "sid2" 0).1.status ≠ SessionStatus.ready ∧
    (createSession paramsC2 "sid2" 0).1.threshold ≤
      (createSession paramsC2 "sid2" 0).1.collectedSigners.length :=
  ⟨rfl, by decide, by decide⟩

/-- C2 corrected. Every created session has status pending, whatever the
threshold (including threshold 1: there is no fast path to ready; readiness
is only recomputed by applySignature). -/
theorem createSession_always_pending (params : CreateParams)
    (newSessionId : String) (now : Nat) :
    (createSession params newSessionId now).1.status = SessionStatus.pending :=
  rfl

/-! ### Claim C3 -/

/-- An already-submitted live session with its txHash recorded, used for
the C3 counterexample: a second markSubmitted with the same hash is a
fixpoint. -/
def sessC3 : MultiSigSession :=
  { sessionId := "sid3"
    unsignedTx := "utx"
    partialTx := "ptx"
    collectedSigners := ["aa", "bb"]
    threshold := 2
    status := SessionStatus.submitted
    createdAt := 0
    expiresAt := 600000
    txHash := some "txh" }

/-- C3 counterexample. The claim: every session carries a version counter
that every accepted mutation — markSubmitted included — increments by 1.
The session record is the entire per-session state, so such a counter would
be a function of the session record; but markSubmitted is idempotent: on
the live already-submitted session sessC3 (whose txHash is already "txh"),
markSubmitted "txh" is accepted and stores the session unchanged, so no
function of the session can grow by 1 across every accepted markSubmitted. -/
theorem no_version_counter_cex :
    ¬ ∃ version : MultiSigSession → Nat,
        ∀ (store : Store) (now : Nat) (hsh : String) (s s2 : MultiSigSession),
          (readSession store now).1 = some s →
          (markSubmitted hsh store now).2 = some s2 →
          version s2 = version s + 1 := by
  rintro ⟨version, hversion⟩
  have h := hversion (some sessC3) 0 "txh" sessC3 sessC3 rfl rfl
  omega

/-- C3 corrected. The session record has no version field; the collected
signer count is the only monotonic progress measure: it is 1 at creation
and grows by exactly 1 on every accepted applySignature, while
markSubmitted rewrites only status and txHash (so a repeated markSubmitted
with the same hash leaves the session unchanged, and stale concurrent
writers are not detectable). -/
theorem progress_measure_collected_count (params : CreateParams)
    (newSessionId : String) (ap : ApplyParams) (hsh : String) (store : Store)
    (now : Nat) (s s2 : MultiSigSession)
    (hread : (readSession store now).1 = some s)
    (happly : (applySignature ap store now).1 = Except.ok s2) :
    (createSession params newSessionId now).1.collectedSigners.length = 1 ∧
    s2.collectedSigners.length = s.collectedSigners.length + 1 ∧
    (markSubmitted hsh store now).2 =
      some { s with status := SessionStatus.submitted, txHash := some hsh } := by
  obtain ⟨s', hread', hpend, hfresh, hupd⟩ := applySignature_ok_inv ap store now s2 happly
  have hss : s' = s := by
    rw [hread'] at hread
    exact (Option.some.injEq s' s ▸ hread)
  subst hss
  obtain ⟨hstore, hexp, hr⟩ := readSession_some store now s' hread
  refine ⟨rfl, ?_, ?_⟩
  · rw [hupd]
    simp
  · rw [markSubmitted, hr]
    rfl

/-- C3 witness: the corrected claim at a concrete live pending session with
one collected signer and threshold 3, applying the fresh signer "bb". -/
theorem progress_measure_collected_count_witness :
    (createSession paramsC2 "sid2" 0).1.collectedSigners.length = 1 ∧
    ({ sessC1 with
        partialTx := "ptx2"
        collectedSigners := ["aa", "bb"]
        status := SessionStatus.ready } : MultiSigSession).collectedSigners.length =
      sessC1.collectedSigners.length + 1 ∧
    (markSubmitted "txh" (some sessC1) 0).2 =
      some { sessC1 with status := SessionStatus.submitted, txHash := some "txh" } :=
  progress_measure_collected_count paramsC2 "sid2"
    { signerPkh := "bb", newPartialTx := "ptx2" } "txh" (some sessC1) 0 sessC1
    { sessC1 with
        partialTx := "ptx2"
        collectedSigners := ["aa", "bb"]
        status := SessionStatus.ready }
    rfl rfl

/-! ### Claim C4 -/

/-- A live local session with one collected signer, used for the C4
counterexample. -/
def sessC4 : MultiSigSession :=
  { sessionId := "sid4"
    unsignedTx := "utx"
    partialTx := "ptx"
    collectedSigners := ["aa"]
    threshold := 3
    status := SessionStatus.pending
    createdAt := 0
    expiresAt := 600000
    txHash := none }

/-- A payload for the same sessionId carrying strictly more progress (three
collected signers against the local one). -/
def payloadC4 : SessionPayload :=
  { sessionId := "sid4"
    partialTx := "ptx3"
    collectedSigners := ["aa", "bb", "cc"]
    threshold := 3
    expiresAt := 600000 }

/-- C4 counterexample. The claim: a payload whose progress is strictly
greater than the matching local session's is adopted. The code compares
nothing: whenever the sessionIds match it returns the local session
unchanged, so the strictly-more-advanced payloadC4 (3 collected signers
against the local 1) is discarded and the local session sessC4 is kept. -/
theorem import_newer_payload_not_adopted_cex :
    sessC4.sessionId = payloadC4.sessionId ∧
    sessC4.collectedSigners.length < payloadC4.collectedSigners.length ∧
    importSessionPayload payloadC4 (some sessC4) 0 = (Except.ok sessC4, some sessC4) ∧
    sessC4.collectedSigners ≠ payloadC4.collectedSigners :=
  ⟨rfl, by decide, rfl, by decide⟩

/-- C4 corrected. When the payload's sessionId matches a live local
session, import is always a no-op returning the local session and leaving
the store unchanged, whatever the payload's progress; in particular it
never decreases the local collected-signer count, but it also never adopts
a strictly more advanced payload for an existing session. -/
theorem import_same_id_keeps_local (payload : SessionPayload) (store : Store)
    (now : Nat) (s : MultiSigSession)
    (hread : (readSession store now).1 = some s)
    (hid : s.sessionId = payload.sessionId)
    (hlive : ¬ payload.expiresAt < now) :
    importSessionPayload payload store now = (Except.ok s, store) := by
  obtain ⟨hstore, hexp, hr⟩ := readSession_some store now s hread
  rw [importSessionPayload, if_neg hlive, hr]
  simp [hid, hstore]

/-- C4 witness: the corrected claim at the concrete local session sessC4
and the matching payload payloadC4. -/
theorem import_same_id_keeps_local_witness :
    importSessionPayload payloadC4 (some sessC4) 0 = (Except.ok sessC4, some sessC4) :=
  import_same_id_keeps_local payloadC4 (some sessC4) 0 sessC4 rfl rfl (by decide)

/-! ### Claim C5 -/

/-- A payload whose collected count already meets its threshold, used for
the C5 counterexample. -/
def payloadC5 : SessionPayload :=
  { sessionId := "sid5"
    partialTx := "ptx"
    collectedSigners := ["aa", "bb"]
    threshold := 2
    expiresAt := 600000 }

/-- C5 counterexample. The claim: for non-terminal sessions, status = ready
iff the collected count meets the threshold, with import recomputing status
from that comparison when adopting. Import recomputes nothing: adopting
payloadC5 (2 collected, threshold 2) on a device with no local session
yields a non-terminal session whose count meets the threshold but whose
status is the literal "pending", not "ready". -/
theorem ready_iff_threshold_cex :
    (importSessionPayload payloadC5 none 0).1 = Except.ok (adoptPayload payloadC5 0) ∧
    (adoptPayload payloadC5 0).threshold ≤ (adoptPayload payloadC5 0).collectedSigners.length ∧
    (adoptPayload payloadC5 0).status = SessionStatus.pending ∧
    (adoptPayload payloadC5 0).status ≠ SessionStatus.ready ∧
    (adoptPayload payloadC5 0).status ≠ SessionStatus.submitted :=
  ⟨rfl, by decide, rfl, by decide, by decide⟩

/-- C5 corrected. The biconditional "status = ready iff collected count ≥
threshold" holds for every session produced by a successful applySignature
(which recomputes status from the comparison, and never yields the terminal
submitted status), but it is not established by createSession or by import,
which both set the literal "pending" even when the count already meets the
threshold. -/
theorem applySignature_ready_iff_threshold (params : ApplyParams)
    (store : Store) (now : Nat) (s2 : MultiSigSession)
    (happly : (applySignature params store now).1 = Except.ok s2) :
    (s2.status = SessionStatus.ready ↔ s2.threshold ≤ s2.collectedSigners.length) ∧
    s2.status ≠ SessionStatus.submitted := by
  obtain ⟨s, hread, hpend, hfresh, hupd⟩ := applySignature_ok_inv params store now s2 happly
  subst hupd
  by_cases hmet : s.threshold ≤ s.collectedSigners.length + 1
  · simp [hmet]
  · simp [hmet]

/-- C5 witness: the corrected claim at the session produced by applying the
fresh signer "dd" to the concrete live pending session sessC1. -/
theorem applySignature_ready_iff_threshold_witness :
    (({ sessC1 with
        partialTx := "ptx2"
        collectedSigners := ["aa", "dd"]
        status := SessionStatus.ready } : MultiSigSession).status = SessionStatus.ready ↔
      ({ sessC1 with
        partialTx := "ptx2"
        collectedSigners := ["aa", "dd"]
        status := SessionStatus.ready } : MultiSigSession).threshold ≤
        ({ sessC1 with
          partialTx := "ptx2"
          collectedSigners := ["aa", "dd"]
          status := SessionStatus.ready } : MultiSigSession).collectedSigners.length) ∧
    ({ sessC1 with
        partialTx := "ptx2"
        collectedSigners := ["aa", "dd"]
        status := SessionStatus.ready } : MultiSigSession).status ≠ SessionStatus.submitted :=
  applySignature_ready_iff_threshold
    { signerPkh := "dd", newPartialTx := "ptx2" } (some sessC1) 0
    { sessC1 with
        partialTx := "ptx2"
        collectedSigners := ["aa", "dd"]
        status := SessionStatus.ready }
    rfl

/-! ### Claim C6 -/

/-- A session whose expiresAt (100) is already past at the observation time
200 used below. -/
def sessC6 : MultiSigSession :=
  { sessionId := "sid6"
    unsignedTx := "utx"
    partialTx := "ptx"
    collectedSigners := ["aa", "bb"]
    threshold := 2
    status := SessionStatus.ready
    createdAt := 0
    expiresAt := 100
    txHash := none }

/-- C6 counterexample. The claim: once the current time exceeds expiresAt,
every mutating operation — markSubmitted included — fails with a
session-expired error. markSubmitted never fails: on the expired session
sessC6 at time 200 it returns successfully (a silent no-op that purges the
stale entry), rather than failing. -/
theorem markSubmitted_after_expiry_no_error_cex :
    sessC6.expiresAt < 200 ∧
    markSubmitted "txh" (some sessC6) 200 = (Except.ok (), none) :=
  ⟨by decide, rfl⟩

/-- C6 corrected. Once now exceeds expiresAt: applySignature fails with the
session-expired message; markSubmitted succeeds as a silent no-op; the
session is purged on the next access (the store is empty afterwards); and
a subsequent read returns not-found. -/
theorem expiry_behavior (s : MultiSigSession) (now : Nat) (params : ApplyParams)
    (hsh : String) (hexp : s.expiresAt < now) :
    applySignature params (some s) now =
      (Except.error "No active session or session expired.", none) ∧
    markSubmitted hsh (some s) now = (Except.ok (), none) ∧
    readSession (some s) now = (none, none) ∧
    (getSession (some s) now).1 = none := by
  have hb : isExpired s now = true := by simp [isExpired, hexp]
  have hr : readSession (some s) now = (none, none) := by simp [readSession, hb]
  refine ⟨?_, ?_, hr, ?_⟩
  · rw [applySignature, hr]
  · rw [markSubmitted, hr]
  · rw [getSession, hr]

/-- C6 witness: the corrected claim at the concrete expired session sessC6
observed at time 200. -/
theorem expiry_behavior_witness :
    applySignature { signerPkh := "cc", newPartialTx := "ptx2" } (some sessC6) 200 =
      (Except.error "No active session or session expired.", none) ∧
    markSubmitted "txh2" (some sessC6) 200 = (Except.ok (), none) ∧
    readSession (some sessC6) 200 = (none, none) ∧
    (getSession (some sessC6) 200).1 = none :=
  expiry_behavior sessC6 200 { signerPkh := "cc", newPartialTx := "ptx2" } "txh2"
    (by decide)

/-! ### Claim C7 -/

/-- C7 confirmed. On a live pending session, applySignature with a signer
already in collectedSigners fails with the already-signed message and
leaves the store — hence every field of the session, the partial
transaction included — exactly as it was: nothing is written. -/
theorem applySignature_alreadySigned (params : ApplyParams) (store : Store)
    (now : Nat) (s : MultiSigSession)
    (hread : (readSession store now).1 = some s)
    (hpend : s.status = SessionStatus.pending)
    (hdup : params.signerPkh ∈ s.collectedSigners) :
    applySignature params store now =
      (Except.error "This wallet has already signed this session.", store) := by
  obtain ⟨hstore, hexp, hr⟩ := readSession_some store now s hread
  rw [applySignature, hr]
  simp [hpend, hdup, hstore]

/-- C7 witness: the already-collected signer "aa" re-applying on the
concrete live pending session sessC1 fails and the store is unchanged. -/
theorem applySignature_alreadySigned_witness :
    applySignature { signerPkh := "aa", newPartialTx := "ptx2" } (some sessC1) 0 =
      (Except.error "This wallet has already signed this session.", some sessC1) :=
  applySignature_alreadySigned { signerPkh := "aa", newPartialTx := "ptx2" }
    (some sessC1) 0 sessC1 rfl rfl (by decide)

/-! ### Claim C8 -/

/-- C8 confirmed. initiateUnlock (the Create entry point of the unlock
flow) fails with the session-already-active message whenever a live session
exists in the local store, and leaves the store — and so the existing
session — unchanged: explicit clearing is required first. -/
theorem initiateUnlock_active_session_fails (ext : UnlockExternals)
    (store : Store) (now : Nat) (s : MultiSigSession)
    (hread : (readSession store now).1 = some s) :
    initiateUnlock ext store now =
      (Except.error "A multisig session is already active. Clear it before starting a new one.",
       store) := by
  obtain ⟨hstore, hexp, hr⟩ := readSession_some store now s hread
  subst hstore
  simp [initiateUnlock, hasActiveSession, hr]

/-- The externally built inputs of a competing initiateUnlock attempt, used
for the C8 witness. -/
def extC8 : UnlockExternals :=
  { unsignedTx := "utx8"
    partialTx := "ptx8"
    threshold := 2
    initiatorPkh := "ee"
    newSessionId := "sid8" }

/-- C8 witness: initiating while the concrete live session sessC1 is stored
fails and keeps sessC1 in place. -/
theorem initiateUnlock_active_session_fails_witness :
    initiateUnlock extC8 (some sessC1) 0 =
      (Except.error "A multisig session is already active. Clear it before starting a new one.",
       some sessC1) :=
  initiateUnlock_active_session_fails extC8 (some sessC1) 0 sessC1 rfl

/-! ### Claim C9 -/

/-- C9 confirmed. markSubmitted is total and never fails: its result is
always ok. When no live session exists it is a silent no-op (the store
holds nothing afterwards, so nothing is recorded); when a live session
exists it overwrites it with status submitted and the txHash, with no guard
on the current status or the collected count. The status = ready
precondition lives only in submitUnlock, which refuses with the
not-enough-signatures message whenever the session is not ready. -/
theorem markSubmitted_total_no_guard (hsh : String) (store : Store) (now : Nat) :
    (markSubmitted hsh store now).1 = Except.ok () ∧
    ((readSession store now).1 = none → (markSubmitted hsh store now).2 = none) ∧
    (∀ s, (readSession store now).1 = some s →
      (markSubmitted hsh store now).2 =
        some { s with status := SessionStatus.submitted, txHash := some hsh }) ∧
    (∀ s, (readSession store now).1 = some s → s.status ≠ SessionStatus.ready →
      (submitUnlock hsh store now).1 =
        Except.error ("Not enough signatures: " ++ toString s.collectedSigners.length
          ++ "/" ++ toString s.threshold ++ ". Waiting on "
          ++ toString ((s.threshold : Int) - s.collectedSigners.length)
          ++ " more signer(s).")) := by
  cases store with
  | none =>
      refine ⟨rfl, fun _ => rfl, ?_, ?_⟩ <;> intro s hs <;> simp [readSession] at hs
  | some t =>
      cases hb : isExpired t now with
      | true =>
          have hr : readSession (some t) now = (none, none) := by
            simp [readSession, hb]
          refine ⟨?_, fun _ => ?_, ?_, ?_⟩
          · rw [markSubmitted, hr]
          · rw [markSubmitted, hr]
          · intro s hs; rw [hr] at hs; simp at hs
          · intro s hs hnr; rw [hr] at hs; simp at hs
      | false =>
          have hr : readSession (some t) now = (some t, some t) := by
            simp [readSession, hb]
          refine ⟨?_, ?_, ?_, ?_⟩
          · rw [markSubmitted, hr]
          · intro h; rw [hr] at h; simp at h
          · intro s hs
            rw [hr] at hs
            simp only [Option.some.injEq] at hs
            subst hs
            rw [markSubmitted, hr]
            rfl
          · intro s hs hnr
            rw [hr] at hs
            simp only [Option.some.injEq] at hs
            subst hs
            rw [submitUnlock, getSession, hr]
            simp [hnr]

/-- C9 witness: at the concrete live pending session sessC4 (1 of 3
signatures): markSubmitted succeeds and records the hash though the session
is far from ready, while submitUnlock refuses. -/
theorem markSubmitted_total_no_guard_witness :
    (markSubmitted "h9" (some sessC4) 0).1 = Except.ok () ∧
    (markSubmitted "h9" (some sessC4) 0).2 =
      some { sessC4 with status := SessionStatus.submitted, txHash := some "h9" } ∧
    (submitUnlock "h9" (some sessC4) 0).1 =
      Except.error "Not enough signatures: 1/3. Waiting on 2 more signer(s)." :=
  ⟨(markSubmitted_total_no_guard "h9" (some sessC4) 0).1,
   (markSubmitted_total_no_guard "h9" (some sessC4) 0).2.2.1 sessC4 rfl,
   (markSubmitted_total_no_guard "h9" (some sessC4) 0).2.2.2 sessC4 rfl (by decide)⟩

/-! ### Claim C10 -/

/-- C10 confirmed. Importing the payload exported from a live session onto
a device with no local session adopts it: the resulting session keeps the
exported sessionId, partialTx, collectedSigners, threshold and expiresAt,
while unsignedTx is replaced by the partial transaction, createdAt is reset
to the import time, and status is reset to pending. -/
theorem export_import_roundtrip (store : Store) (t1 t2 : Nat)
    (s : MultiSigSession) (p : SessionPayload)
    (hread : (readSession store t1).1 = some s)
    (hexport : (exportSessionPayload store t1).1 = some p)
    (hlive : ¬ p.expiresAt < t2) :
    importSessionPayload p none t2 =
      (Except.ok (adoptPayload p t2), writeSession (adoptPayload p t2)) ∧
    (adoptPayload p t2).sessionId = s.sessionId ∧
    (adoptPayload p t2).partialTx = s.partialTx ∧
    (adoptPayload p t2).collectedSigners = s.collectedSigners ∧
    (adoptPayload p t2).threshold = s.threshold ∧
    (adoptPayload p t2).expiresAt = s.expiresAt ∧
    (adoptPayload p t2).unsignedTx = s.partialTx ∧
    (adoptPayload p t2).createdAt = t2 ∧
    (adoptPayload p t2).status = SessionStatus.pending := by
  obtain ⟨hstore, hexpd, hr⟩ := readSession_some store t1 s hread
  rw [exportSessionPayload, hr] at hexport
  simp only [Option.some.injEq] at hexport
  subst hexport
  refine ⟨?_, rfl, rfl, rfl, rfl, rfl, rfl, rfl, rfl⟩
  rw [importSessionPayload, if_neg hlive]
  rfl

/-- The payload exported from sessC1, used for the C10 witness. -/
def payloadC10 : SessionPayload :=
  { sessionId := "sid1"
    partialTx := "ptx"
    collectedSigners := ["aa"]
    threshold := 2
    expiresAt := 600000 }

/-- C10 witness: exporting the concrete live session sessC1 at time 0 and
importing the payload at time 5 on an empty store reproduces sessC1's
public progress with unsignedTx set to the partial transaction, createdAt
5, status pending. -/
theorem export_import_roundtrip_witness :
    importSessionPayload payloadC10 none 5 =
      (Except.ok (adoptPayload payloadC10 5), writeSession (adoptPayload payloadC10 5)) ∧
    (adoptPayload payloadC10 5).sessionId = sessC1.sessionId ∧
    (adoptPayload payloadC10 5).partialTx = sessC1.partialTx ∧
    (adoptPayload payloadC10 5).collectedSigners = sessC1.collectedSigners ∧
    (adoptPayload payloadC10 5).threshold = sessC1.threshold ∧
    (adoptPayload payloadC10 5).expiresAt = sessC1.expiresAt ∧
    (adoptPayload payloadC10 5).unsignedTx = sessC1.partialTx ∧
    (adoptPayload payloadC10 5).createdAt = 5 ∧
    (adoptPayload payloadC10 5).status = SessionStatus.pending :=
  export_import_roundtrip (some sessC1) 0 5 sessC1 payloadC10 rfl rfl (by decide)

end MultiSig
